import Mathlib

/-!
Shallow embedding of `tchannel/tornado/connection.py` (class `TornadoConnection`)
and theorems checking the connection-level claims of the specification.

Python dictionaries are modelled as association lists with dict semantics
(assignment replaces in place, `pop` removes, `in` tests membership).
Tornado futures are modelled as `Slot` values carrying a creation serial
(for object identity) and a `FutureState` (running / result set / exception set).
Side effects of a method (frames written to the stream, slots installed,
log-and-drop of orphans, closing) are returned as explicit effect lists.
-/

namespace TChannel

/-- Message type enumeration, as used by `connection.py` via `messages.Types`. -/
inductive MessageType where
  | init_req
  | init_res
  | call_req
  | call_res
  | call_req_continue
  | call_res_continue
  | cancel
  | claim
  | ping_req
  | ping_res
  | error
deriving DecidableEq, Repr

/-- Modelled from the spec: the numeric codes of the message-type enumeration
(spec section 3); `messages/types.py` itself is not under `src/`. The codes only
feed the `%d` formatting of handshake error strings. -/
def MessageType.code : MessageType → Nat
  | .init_req => 0x01
  | .init_res => 0x02
  | .call_req => 0x03
  | .call_res => 0x04
  | .call_req_continue => 0x13
  | .call_res_continue => 0x14
  | .cancel => 0xC0
  | .claim => 0xC1
  | .ping_req => 0xD0
  | .ping_res => 0xD1
  | .error => 0xFF

/-- Typed message value. Only the fields `connection.py` reads or constructs are
modelled: the type tag, the handshake headers (`host_port`, `process_name`,
`version`) and the error-message fields. A `none` header models a Python
attribute that is `None`/missing. -/
structure Message where
  message_type : MessageType
  host_port : Option String := none
  process_name : Option String := none
  version : Nat := 0
  error_code : Option Nat := none
  error_text : Option String := none
deriving DecidableEq, Repr

/-- Context delivered by the read loop: the frame's message id plus the decoded
message (`Context(f.header.message_id, message)`). -/
structure Context where
  message_id : Nat
  message : Message
deriving DecidableEq, Repr

/-- Exceptions raised by the embedded methods. -/
inductive TChanException where
  | connectionClosed (text : String)
  | invalidMessage (text : String)
  | invalidErrorCode (code : Nat)
deriving DecidableEq, Repr

/-- State of a tornado future: still running, result set, or exception set. -/
inductive FutureState where
  | running
  | done (ctx : Context)
  | failed (e : TChanException)
deriving DecidableEq, Repr

/-- A completion slot: a tornado future with a creation serial so that distinct
future objects are distinguishable. -/
structure Slot where
  serial : Nat
  state : FutureState
deriving DecidableEq, Repr

/-- Dictionary lookup (`d[k]` / `d.get(k)`): first (unique) binding of the key. -/
def dictLookup {α : Type} (d : List (Nat × α)) (k : Nat) : Option α :=
  match d with
  | [] => none
  | p :: rest => if p.1 = k then some p.2 else dictLookup rest k

/-- Dictionary membership (`k in d`). -/
def dictContains {α : Type} (d : List (Nat × α)) (k : Nat) : Bool :=
  (dictLookup d k).isSome

/-- Dictionary assignment (`d[k] = v`): replaces the binding in place when the
key is present, appends otherwise — Python dict semantics. -/
def dictInsert {α : Type} (d : List (Nat × α)) (k : Nat) (v : α) : List (Nat × α) :=
  if d.any (fun p => p.1 == k) then
    d.map (fun p => if p.1 = k then (k, v) else p)
  else
    d ++ [(k, v)]

/-- Dictionary removal (`d.pop(k)`). -/
def dictPop {α : Type} (d : List (Nat × α)) (k : Nat) : List (Nat × α) :=
  d.filter (fun p => !(p.1 == k))

/-- Connection state, from `TornadoConnection.__init__`. `slotSerial` is the
bookkeeping counter handing out identities to newly created futures. -/
structure TornadoConnection where
  closed : Bool
  idSequence : Nat
  remoteHost : Option String
  remoteProcessName : Option String
  requestedVersion : Option Nat
  awaitingResponses : List (Nat × Slot)
  slotSerial : Nat
deriving DecidableEq, Repr

/-- Fresh connection as built by `__init__`. -/
def newConnection : TornadoConnection :=
  { closed := false
    idSequence := 0
    remoteHost := none
    remoteProcessName := none
    requestedVersion := none
    awaitingResponses := []
    slotSerial := 0 }

/-- Observable side effects of the send path. -/
inductive Effect where
  | insertSlot (id : Nat) (serial : Nat)
  | writeFrame (m : Message) (id : Nat)
deriving DecidableEq, Repr

/-- Observable side effects of the inbound response handler. -/
inductive HandlerEffect where
  | closeConn
  | fulfill (id : Nat) (ctx : Context)
  | logOrphan (id : Nat)
deriving DecidableEq, Repr

/-- Method `next_message_id`: increments `_id_sequence` and returns it. -/
def next_message_id (c : TornadoConnection) : Nat × TornadoConnection :=
  (c.idSequence + 1, { c with idSequence := c.idSequence + 1 })

/-- The idiom `message_id or self.next_message_id()`: Python `or` takes the
right operand when the left is falsy, and both `None` and `0` are falsy. -/
def resolveId (c : TornadoConnection) (mid : Option Nat) : Nat × TornadoConnection :=
  match mid with
  | none => next_message_id c
  | some n => if n = 0 then next_message_id c else (n, c)

/-- Membership test of `frame_and_write`: is the type in
`(Types.CALL_REQ, Types.INIT_REQ, Types.PING_REQ)`. -/
def isRequestType : MessageType → Bool
  | .call_req => true
  | .init_req => true
  | .ping_req => true
  | _ => false

/-- Method `frame_and_write`: resolves the message id, installs a running
future in `awaiting_responses` for request-bearing types, then frames the
message and writes it to the stream. `generate_checksum` mutates only the
message's checksum field, which is not read by this module, so it is a no-op
here. Effects are listed in execution order. -/
def frame_and_write (c : TornadoConnection) (message : Message) (mid : Option Nat) :
    TornadoConnection × List Effect :=
  let r := resolveId c mid
  let message_id := r.1
  let c1 := r.2
  if isRequestType message.message_type then
    let slot : Slot := { serial := c1.slotSerial, state := FutureState.running }
    let c2 : TornadoConnection :=
      { c1 with
        slotSerial := c1.slotSerial + 1
        awaitingResponses := dictInsert c1.awaitingResponses message_id slot }
    (c2, [Effect.insertSlot message_id slot.serial, Effect.writeFrame message message_id])
  else
    (c1, [Effect.writeFrame message message_id])

/-- Loop body of `frame_and_write_stream`: writes each fragment with the same
already-resolved message id. -/
def writeFragments (c : TornadoConnection) (fragments : List Message) (message_id : Nat) :
    TornadoConnection × List Effect :=
  match fragments with
  | [] => (c, [])
  | m :: rest =>
    let r := frame_and_write c m (some message_id)
    let r2 := writeFragments r.1 rest message_id
    (r2.1, r.2 ++ r2.2)

/-- Method `frame_and_write_stream`: resolves the id once
(`message_id = message_id or self.next_message_id()`), then writes every
fragment produced by the message factory under that id. -/
def frame_and_write_stream (c : TornadoConnection) (fragments : List Message)
    (mid : Option Nat) : TornadoConnection × List Effect :=
  let r := resolveId c mid
  writeFragments r.2 fragments r.1

/-- Exception text of `on_close`: `"canceling outstanding request %d" % id`. -/
def connectionClosedFailure (message_id : Nat) : TChanException :=
  TChanException.connectionClosed ("canceling outstanding request " ++ toString message_id)

/-- Method `on_close` (the close callback): marks the connection closed, sets
a `ConnectionClosedException` on every awaited response future, and empties
`awaiting_responses`. The second component returns each formerly-pending slot
after its `set_exception` call. -/
def on_close (c : TornadoConnection) : TornadoConnection × List (Nat × Slot) :=
  ({ c with closed := true, awaitingResponses := [] },
   c.awaitingResponses.map
     (fun p => (p.1, { p.2 with state := FutureState.failed (connectionClosedFailure p.1) })))

/-- Handler `handle_call_response` from `TornadoConnection.outgoing`: a `None`
context closes the connection; a context whose id is in `awaiting_responses`
pops the future and sets the result if it is still running; any other context
is logged as unrecognized and dropped. -/
def handle_call_response (octx : Option Context) (c : TornadoConnection) :
    TornadoConnection × List HandlerEffect :=
  match octx with
  | none => (c, [HandlerEffect.closeConn])
  | some context =>
    match dictLookup c.awaitingResponses context.message_id with
    | some slot =>
      let c1 : TornadoConnection :=
        { c with awaitingResponses := dictPop c.awaitingResponses context.message_id }
      match slot.state with
      | FutureState.running => (c1, [HandlerEffect.fulfill context.message_id context])
      | _ => (c1, [])
    | none => (c, [HandlerEffect.logOrphan context.message_id])

/-- Python truthiness of an optional string attribute: `None` and the empty
string are falsy. -/
def pyTruthy : Option String → Bool
  | none => false
  | some s => !(s == "")

/-- Method `extract_handshake_headers`: raises `InvalidMessageException` when
`host_port` or `process_name` is falsy, otherwise records peer identity and
requested version on the connection. -/
def extract_handshake_headers (c : TornadoConnection) (m : Message) :
    Except TChanException TornadoConnection :=
  if !(pyTruthy m.host_port) then
    Except.error (TChanException.invalidMessage "Missing required header: host_port")
  else if !(pyTruthy m.process_name) then
    Except.error (TChanException.invalidMessage "Missing required header: process_name")
  else
    Except.ok
      { c with
        remoteHost := m.host_port
        remoteProcessName := m.process_name
        requestedVersion := some m.version }

/-- Protocol version constant (`messages.common.PROTOCOL_VERSION`; spec
section 6 fixes it to 2). -/
def PROTOCOL_VERSION : Nat := 2

/-- An `InitRequestMessage(version=PROTOCOL_VERSION, headers=headers)`. -/
def initRequestMessage (host_port process_name : Option String) : Message :=
  { message_type := MessageType.init_req
    host_port := host_port
    process_name := process_name
    version := PROTOCOL_VERSION }

/-- An `InitResponseMessage(PROTOCOL_VERSION, headers)`. -/
def initResponseMessage (host_port process_name : Option String) : Message :=
  { message_type := MessageType.init_res
    host_port := host_port
    process_name := process_name
    version := PROTOCOL_VERSION }

/-- A `PingRequestMessage()`. -/
def pingRequestMessage : Message := { message_type := MessageType.ping_req }

/-- A `PingResponseMessage()`. -/
def pingResponseMessage : Message := { message_type := MessageType.ping_res }

/-- Method `initiate_handshake`: frames and writes an init request, with no
explicit message id. -/
def initiate_handshake (c : TornadoConnection) (host_port process_name : Option String) :
    TornadoConnection × List Effect :=
  frame_and_write c (initRequestMessage host_port process_name) none

/-- Method `await_handshake_reply`, after the read loop yielded `ctx`: a
non-`init_res` message raises `InvalidMessageException`; otherwise the headers
are extracted and the message returned. Raising leaves the connection state
untouched, so the unchanged connection is returned alongside the outcome. -/
def await_handshake_reply (c : TornadoConnection) (ctx : Context) :
    TornadoConnection × Except TChanException Message :=
  if ctx.message.message_type ≠ MessageType.init_res then
    (c, Except.error (TChanException.invalidMessage
      ("Expected handshake response, got " ++ toString ctx.message.message_type.code)))
  else
    match extract_handshake_headers c ctx.message with
    | Except.error e => (c, Except.error e)
    | Except.ok c1 => (c1, Except.ok ctx.message)

/-- Method `await_handshake`, after the read loop yielded `ctx`: a
non-`init_req` message raises; otherwise headers are extracted and an
`InitResponseMessage` is framed and written with `message_id=ctx.message_id`. -/
def await_handshake (c : TornadoConnection) (ctx : Context)
    (host_port process_name : Option String) :
    Except TChanException (TornadoConnection × List Effect) :=
  if ctx.message.message_type ≠ MessageType.init_req then
    Except.error (TChanException.invalidMessage
      ("You need to shake my hand first. Got: " ++ toString ctx.message.message_type.code))
  else
    match extract_handshake_headers c ctx.message with
    | Except.error e => Except.error e
    | Except.ok c1 =>
      Except.ok (frame_and_write c1 (initResponseMessage host_port process_name)
        (some ctx.message_id))

/-- Method `ping`: frames and writes a ping request. -/
def ping (c : TornadoConnection) (mid : Option Nat) : TornadoConnection × List Effect :=
  frame_and_write c pingRequestMessage mid

/-- Method `pong`: frames and writes a ping response. -/
def pong (c : TornadoConnection) (mid : Option Nat) : TornadoConnection × List Effect :=
  frame_and_write c pingResponseMessage mid

/-- Modelled from the spec: the error-code enumeration of section 7
(`messages/error.py` is not under `src/`). -/
inductive ErrorCode where
  | invalid
  | timeout
  | cancelled
  | busy
  | declined
  | unexpected
  | bad_request
  | network_error
  | unhealthy
  | fatal
deriving DecidableEq, Repr

/-- Modelled from the spec: numeric values for the error codes. The spec does
not fix the numbers, so they are assigned in listed order starting at 1; only
membership in the enumeration and the identity of `bad_request` matter to the
claims. -/
def ErrorCode.code : ErrorCode → Nat
  | .invalid => 1
  | .timeout => 2
  | .cancelled => 3
  | .busy => 4
  | .declined => 5
  | .unexpected => 6
  | .bad_request => 7
  | .network_error => 8
  | .unhealthy => 9
  | .fatal => 10

/-- Modelled from the spec: `ErrorMessage.ERROR_CODES.keys()`, the set of
valid wire error codes. -/
def ERROR_CODES : List Nat :=
  [ErrorCode.invalid, ErrorCode.timeout, ErrorCode.cancelled, ErrorCode.busy,
   ErrorCode.declined, ErrorCode.unexpected, ErrorCode.bad_request,
   ErrorCode.network_error, ErrorCode.unhealthy, ErrorCode.fatal].map ErrorCode.code

/-- An `ErrorMessage(code=..., message=...)`. -/
def errorMessage (code : Nat) (text : String) : Message :=
  { message_type := MessageType.error
    error_code := some code
    error_text := some text }

/-- Method `send_error`: validates the code against the enumeration, then
frames and writes an `ErrorMessage` whose code field is the constant
`ErrorCode.bad_request` — not the validated argument. -/
def send_error (c : TornadoConnection) (code : Nat) (text : String) (mid : Option Nat) :
    Except TChanException (TornadoConnection × List Effect) :=
  if !(ERROR_CODES.contains code) then
    Except.error (TChanException.invalidErrorCode code)
  else
    Except.ok (frame_and_write c (errorMessage (ErrorCode.code ErrorCode.bad_request) text) mid)

/-- Concrete slot used by witnesses. -/
def slotW : Slot := { serial := 0, state := FutureState.running }

/-- Concrete connection with one pending slot at id 5, used by witnesses. -/
def connW : TornadoConnection := { newConnection with awaitingResponses := [(5, slotW)] }

/-- Concrete inbound call response with id 5, used by witnesses. -/
def ctxW : Context := { message_id := 5, message := { message_type := MessageType.call_res } }

/-- Concrete inbound init request with id 7, used by witnesses. -/
def initReqCtxW : Context :=
  { message_id := 7
    message := { message_type := MessageType.init_req
                 host_port := some "5.6.7.8:9"
                 process_name := some "peer"
                 version := 2 } }

/-- Concrete wrong first message (a ping request) for the initiator side. -/
def wrongReplyCtxW : Context := { message_id := 3, message := pingRequestMessage }

/-- Concrete init response whose `host_port` header is present but empty. -/
def emptyHostPortMsg : Message :=
  { message_type := MessageType.init_res
    host_port := some ""
    process_name := some "peer"
    version := 2 }

/-! Dictionary lemmas. -/

theorem dictLookup_dictPop {α : Type} (d : List (Nat × α)) (k : Nat) :
    dictLookup (dictPop d k) k = none := by
  induction d with
  | nil => rfl
  | cons p rest ih =>
    by_cases h : p.1 = k
    · simpa [dictPop, List.filter_cons, h] using ih
    · simpa [dictPop, List.filter_cons, h, dictLookup] using ih

theorem dictLookup_replace {α : Type} (d : List (Nat × α)) (k : Nat) (v : α)
    (h : d.any (fun p => p.1 == k) = true) :
    dictLookup (d.map (fun p => if p.1 = k then (k, v) else p)) k = some v := by
  induction d with
  | nil => simp at h
  | cons p rest ih =>
    by_cases hk : p.1 = k
    · simp [dictLookup, hk]
    · have h' : rest.any (fun p => p.1 == k) = true := by
        simpa [List.any_cons, hk] using h
      simpa [dictLookup, hk] using ih h'

theorem dictLookup_append_last {α : Type} (d : List (Nat × α)) (k : Nat) (v : α)
    (h : d.any (fun p => p.1 == k) = false) :
    dictLookup (d ++ [(k, v)]) k = some v := by
  induction d with
  | nil => simp [dictLookup]
  | cons p rest ih =>
    rw [List.any_cons, Bool.or_eq_false_iff] at h
    have hk : ¬ p.1 = k := by simpa using h.1
    simpa [dictLookup, hk] using ih h.2

theorem dictLookup_dictInsert {α : Type} (d : List (Nat × α)) (k : Nat) (v : α) :
    dictLookup (dictInsert d k v) k = some v := by
  unfold dictInsert
  cases h : d.any (fun p => p.1 == k) with
  | false =>
    simp only [h, Bool.false_eq_true, if_false]
    exact dictLookup_append_last d k v h
  | true =>
    simp only [h, if_true]
    exact dictLookup_replace d k v h

theorem dictContains_eq_any {α : Type} (d : List (Nat × α)) (k : Nat) :
    dictContains d k = d.any (fun p => p.1 == k) := by
  induction d with
  | nil => rfl
  | cons p rest ih =>
    by_cases hk : p.1 = k
    · simp [dictContains, dictLookup, List.any_cons, hk]
    · have hbeq : (p.1 == k) = false := by simpa using hk
      simpa [dictContains, dictLookup, List.any_cons, hk, hbeq] using ih

theorem dictInsert_length_of_contains {α : Type} (d : List (Nat × α)) (k : Nat) (v : α)
    (h : dictContains d k = true) :
    (dictInsert d k v).length = d.length := by
  rw [dictContains_eq_any] at h
  simp [dictInsert, h]

/-! Claim theorems. -/

/-- Claim C1: for every inbound response delivered to `handle_call_response`,
an id with a pending (running) slot has that slot fulfilled exactly once with
that very response and its entry removed from `awaiting_responses`; an id with
no pending slot is logged and dropped, leaving the table and the connection
untouched (no close); and every fulfillment effect carries exactly the id and
context of the response that caused it. -/
theorem handle_call_response_correlation (c : TornadoConnection) (context : Context) :
    (∀ slot, dictLookup c.awaitingResponses context.message_id = some slot →
      slot.state = FutureState.running →
      handle_call_response (some context) c =
        ({ c with awaitingResponses := dictPop c.awaitingResponses context.message_id },
         [HandlerEffect.fulfill context.message_id context]) ∧
      dictLookup (handle_call_response (some context) c).1.awaitingResponses
        context.message_id = none) ∧
    (dictLookup c.awaitingResponses context.message_id = none →
      handle_call_response (some context) c =
        (c, [HandlerEffect.logOrphan context.message_id])) ∧
    (∀ i ctx2, HandlerEffect.fulfill i ctx2 ∈ (handle_call_response (some context) c).2 →
      i = context.message_id ∧ ctx2 = context) := by
  refine ⟨?_, ?_, ?_⟩
  · intro slot hlook hrun
    constructor
    · simp [handle_call_response, hlook, hrun]
    · simp [handle_call_response, hlook, hrun, dictLookup_dictPop]
  · intro hnone
    simp [handle_call_response, hnone]
  · intro i ctx2 hmem
    cases hlook : dictLookup c.awaitingResponses context.message_id with
    | none => simp [handle_call_response, hlook] at hmem
    | some slot =>
      cases hstate : slot.state with
      | running =>
        simp [handle_call_response, hlook, hstate] at hmem
        exact ⟨hmem.1, hmem.2⟩
      | done ctx3 => simp [handle_call_response, hlook, hstate] at hmem
      | failed e => simp [handle_call_response, hlook, hstate] at hmem

/-- Witness for C1: on a connection with a pending slot at id 5, the response
with id 5 fulfills it and removes the entry. -/
theorem handle_call_response_correlation_witness :
    handle_call_response (some ctxW) connW =
      ({ connW with awaitingResponses := dictPop connW.awaitingResponses ctxW.message_id },
       [HandlerEffect.fulfill ctxW.message_id ctxW]) ∧
    dictLookup (handle_call_response (some ctxW) connW).1.awaitingResponses
      ctxW.message_id = none :=
  (handle_call_response_correlation connW ctxW).1 slotW rfl rfl

/-- Claim C2: after `on_close` runs, `awaiting_responses` is empty, the
connection is marked closed, every slot pending at the moment of close has
been failed with a connection-closed exception carrying its message id, and
running `on_close` a second time changes nothing and fails no slot again. -/
theorem on_close_drains (c : TornadoConnection) :
    (on_close c).1.awaitingResponses = [] ∧
    (on_close c).1.closed = true ∧
    (on_close c).2 =
      c.awaitingResponses.map
        (fun p =>
          (p.1, { p.2 with state := FutureState.failed (connectionClosedFailure p.1) })) ∧
    on_close (on_close c).1 = ((on_close c).1, []) :=
  ⟨rfl, rfl, rfl, rfl⟩

/-! Lemmas about id resolution and the send path. -/

theorem resolveId_ne_zero (c : TornadoConnection) (mid : Option Nat) :
    (resolveId c mid).1 ≠ 0 := by
  cases mid with
  | none => simp [resolveId, next_message_id]
  | some n =>
    by_cases h : n = 0 <;> simp [resolveId, next_message_id, h]

theorem resolveId_slotSerial (c : TornadoConnection) (mid : Option Nat) :
    (resolveId c mid).2.slotSerial = c.slotSerial := by
  cases mid with
  | none => rfl
  | some n => by_cases h : n = 0 <;> simp [resolveId, next_message_id, h]

theorem resolveId_awaiting (c : TornadoConnection) (mid : Option Nat) :
    (resolveId c mid).2.awaitingResponses = c.awaitingResponses := by
  cases mid with
  | none => rfl
  | some n => by_cases h : n = 0 <;> simp [resolveId, next_message_id, h]

theorem frame_and_write_write_id (c : TornadoConnection) (m : Message) (mid : Option Nat)
    (m2 : Message) (id : Nat)
    (h : Effect.writeFrame m2 id ∈ (frame_and_write c m mid).2) :
    id = (resolveId c mid).1 := by
  by_cases hreq : isRequestType m.message_type
  · simp [frame_and_write, hreq] at h
    exact h.2
  · simp [frame_and_write, hreq] at h
    exact h.2

theorem writeFragments_write_id (n : Nat) (hn : n ≠ 0) :
    ∀ (fragments : List Message) (c0 : TornadoConnection) (m2 : Message) (id : Nat),
      Effect.writeFrame m2 id ∈ (writeFragments c0 fragments n).2 → id = n := by
  intro fragments
  induction fragments with
  | nil =>
    intro c0 m2 id h
    simp [writeFragments] at h
  | cons m rest ih =>
    intro c0 m2 id h
    simp only [writeFragments, List.mem_append] at h
    rcases h with h | h
    · have hid := frame_and_write_write_id c0 m (some n) m2 id h
      simpa [resolveId, hn] using hid
    · exact ih _ _ _ h

/-- Claim C3 (amended): the initiator's init request is written with a freshly
drawn message id — 1 on a new connection, never 0 — and the acceptor's init
response reuses the inbound init request's id whenever that id is nonzero. -/
theorem handshake_message_ids (host_port process_name hp2 pn2 : Option String)
    (c : TornadoConnection) (ctx : Context) :
    (initiate_handshake newConnection host_port process_name).2 =
      [Effect.insertSlot 1 0,
       Effect.writeFrame (initRequestMessage host_port process_name) 1] ∧
    (∀ c1 evs, ctx.message_id ≠ 0 →
      await_handshake c ctx hp2 pn2 = Except.ok (c1, evs) →
      evs = [Effect.writeFrame (initResponseMessage hp2 pn2) ctx.message_id]) := by
  constructor
  · rfl
  · intro c1 evs hnz hok
    simp only [await_handshake] at hok
    by_cases ht : ctx.message.message_type = MessageType.init_req
    · rw [if_neg (not_not_intro ht)] at hok
      cases hex : extract_handshake_headers c ctx.message with
      | error e => rw [hex] at hok; cases hok
      | ok c2 =>
        rw [hex] at hok
        have hpair := Except.ok.inj hok
        have hevs : evs =
            (frame_and_write c2 (initResponseMessage hp2 pn2) (some ctx.message_id)).2 := by
          rw [hpair]
        rw [hevs]
        simp [frame_and_write, resolveId, isRequestType, initResponseMessage, hnz]
    · rw [if_pos ht] at hok
      cases hok

/-- Counterexample for C3 as stated: on a fresh connection the initiator's
init request is written with message id 1, and 1 is not 0. -/
theorem initiate_handshake_id_not_zero :
    (initiate_handshake newConnection (some "1.2.3.4:5") (some "svc")).2 =
      [Effect.insertSlot 1 0,
       Effect.writeFrame (initRequestMessage (some "1.2.3.4:5") (some "svc")) 1] ∧
    (1 : Nat) ≠ 0 := ⟨rfl, by decide⟩

/-- Witness for C3 (amended): a concrete acceptor run echoing inbound id 7. -/
theorem handshake_message_ids_witness :
    (7 : Nat) ≠ 0 ∧
    [Effect.writeFrame (initResponseMessage (some "9.9.9.9:1") (some "me")) 7] =
      [Effect.writeFrame (initResponseMessage (some "9.9.9.9:1") (some "me")) 7] := by
  refine ⟨by decide, ?_⟩
  exact (handshake_message_ids (some "1.2.3.4:5") (some "svc") (some "9.9.9.9:1") (some "me")
      newConnection initReqCtxW).2
    { newConnection with
        remoteHost := some "5.6.7.8:9"
        remoteProcessName := some "peer"
        requestedVersion := some 2 }
    [Effect.writeFrame (initResponseMessage (some "9.9.9.9:1") (some "me")) 7]
    (by decide) rfl

/-- Claim C4 (amended): the send path performs no readiness check — `ping` on
any connection, in any state, installs its slot and writes its frame, and no
error is raised (the operation is total). -/
theorem ping_never_gated (c : TornadoConnection) (mid : Option Nat) :
    (ping c mid).2 =
      [Effect.insertSlot (resolveId c mid).1 c.slotSerial,
       Effect.writeFrame pingRequestMessage (resolveId c mid).1] := by
  simp [ping, frame_and_write, pingRequestMessage, isRequestType, resolveId_slotSerial]

/-- Counterexample for C4 as stated: on a fresh connection that has not
completed a handshake (no recorded peer), `ping` writes a frame — nothing is
raised and something is written. -/
theorem ping_before_ready_writes :
    newConnection.remoteHost = none ∧
    (ping newConnection none).2 =
      [Effect.insertSlot 1 0, Effect.writeFrame pingRequestMessage 1] := ⟨rfl, rfl⟩

/-- Claim C5 (amended): sending a request-bearing message under an id already
present in `awaiting_responses` does not fail — the dict assignment silently
replaces the existing pending slot with the fresh one, leaving the table the
same size. -/
theorem insert_existing_id_replaces (c : TornadoConnection) (m : Message) (n : Nat)
    (hreq : isRequestType m.message_type = true) (hn : n ≠ 0)
    (hpresent : dictContains c.awaitingResponses n = true) :
    dictLookup (frame_and_write c m (some n)).1.awaitingResponses n =
      some { serial := c.slotSerial, state := FutureState.running } ∧
    (frame_and_write c m (some n)).1.awaitingResponses.length =
      c.awaitingResponses.length := by
  have hres : resolveId c (some n) = (n, c) := by simp [resolveId, hn]
  constructor
  · simp [frame_and_write, hres, hreq, dictLookup_dictInsert]
  · simp [frame_and_write, hres, hreq, dictInsert_length_of_contains _ _ _ hpresent]

/-- Counterexample for C5 as stated: two sends with the explicit id 5 leave
the table holding the second future (serial 1); the first (serial 0) was
silently replaced, and no failure occurred. -/
theorem double_insert_replaces_silently :
    (ping (ping newConnection (some 5)).1 (some 5)).1.awaitingResponses =
      [(5, { serial := 1, state := FutureState.running })] ∧
    (ping newConnection (some 5)).1.awaitingResponses =
      [(5, { serial := 0, state := FutureState.running })] := ⟨rfl, rfl⟩

/-- Witness for C5 (amended): on the concrete connection with id 5 pending,
a second send under id 5 replaces the slot in place. -/
theorem insert_existing_id_replaces_witness :
    dictLookup (frame_and_write connW pingRequestMessage (some 5)).1.awaitingResponses 5 =
      some { serial := connW.slotSerial, state := FutureState.running } ∧
    (frame_and_write connW pingRequestMessage (some 5)).1.awaitingResponses.length =
      connW.awaitingResponses.length :=
  insert_existing_id_replaces connW pingRequestMessage 5 rfl (by decide) rfl

/-- Claim C6: for a message of type `call_req`, `init_req` or `ping_req`,
`frame_and_write` installs the completion slot in `awaiting_responses` before
the frame is written (the insert effect precedes the write effect, and the
slot is present in the resulting table); for every other type no pending entry
is created. -/
theorem slot_installed_before_write (c : TornadoConnection) (m : Message) (mid : Option Nat) :
    (isRequestType m.message_type = true →
      (frame_and_write c m mid).2 =
        [Effect.insertSlot (resolveId c mid).1 c.slotSerial,
         Effect.writeFrame m (resolveId c mid).1] ∧
      dictLookup (frame_and_write c m mid).1.awaitingResponses (resolveId c mid).1 =
        some { serial := c.slotSerial, state := FutureState.running }) ∧
    (isRequestType m.message_type = false →
      (frame_and_write c m mid).2 = [Effect.writeFrame m (resolveId c mid).1] ∧
      (frame_and_write c m mid).1.awaitingResponses = c.awaitingResponses) := by
  constructor
  · intro h
    constructor
    · simp [frame_and_write, h, resolveId_slotSerial]
    · simp [frame_and_write, h, resolveId_slotSerial, resolveId_awaiting, dictLookup_dictInsert]
  · intro h
    constructor
    · simp [frame_and_write, h]
    · simp [frame_and_write, h, resolveId_awaiting]

/-- Witness for C6: a ping request installs its slot before its write; a ping
response creates no pending entry. -/
theorem slot_installed_before_write_witness :
    (frame_and_write newConnection pingRequestMessage none).2 =
      [Effect.insertSlot 1 0, Effect.writeFrame pingRequestMessage 1] ∧
    (frame_and_write newConnection pingResponseMessage none).2 =
      [Effect.writeFrame pingResponseMessage 1] :=
  ⟨((slot_installed_before_write newConnection pingRequestMessage none).1 rfl).1,
   ((slot_installed_before_write newConnection pingResponseMessage none).2 rfl).1⟩

/-- Claim C7 (amended): when the initiator, awaiting the handshake reply,
receives a first message whose type is not `init_res`, it raises an
invalid-message error, but it does not itself close the connection — the
connection state is returned unchanged. -/
theorem wrong_reply_raises_without_close (c : TornadoConnection) (ctx : Context)
    (h : ctx.message.message_type ≠ MessageType.init_res) :
    await_handshake_reply c ctx =
      (c, Except.error (TChanException.invalidMessage
        ("Expected handshake response, got " ++ toString ctx.message.message_type.code))) := by
  simp [await_handshake_reply, h]

/-- Counterexample for C7 as stated: a ping request as first handshake reply
raises the error, yet the connection comes back unchanged with its closed
flag still false — no close happens. -/
theorem wrong_reply_does_not_close :
    await_handshake_reply newConnection wrongReplyCtxW =
      (newConnection,
       Except.error (TChanException.invalidMessage "Expected handshake response, got 208")) ∧
    newConnection.closed = false := ⟨rfl, rfl⟩

/-- Witness for C7 (amended): the amended theorem applied to the concrete
wrong first message. -/
theorem wrong_reply_raises_without_close_witness :
    await_handshake_reply newConnection wrongReplyCtxW =
      (newConnection, Except.error (TChanException.invalidMessage
        ("Expected handshake response, got " ++
          toString wrongReplyCtxW.message.message_type.code))) :=
  wrong_reply_raises_without_close newConnection wrongReplyCtxW (by decide)

/-- Claim C8 (amended): `extract_handshake_headers` raises an invalid-message
error iff `host_port` or `process_name` is absent or empty (Python
falsiness); otherwise it records the peer's host_port, process name and
version on the connection. -/
theorem extract_handshake_headers_records (c : TornadoConnection) (m : Message) :
    (pyTruthy m.host_port = true → pyTruthy m.process_name = true →
      extract_handshake_headers c m =
        Except.ok
          { c with
            remoteHost := m.host_port
            remoteProcessName := m.process_name
            requestedVersion := some m.version }) ∧
    (pyTruthy m.host_port = false →
      extract_handshake_headers c m =
        Except.error (TChanException.invalidMessage "Missing required header: host_port")) ∧
    (pyTruthy m.host_port = true → pyTruthy m.process_name = false →
      extract_handshake_headers c m =
        Except.error (TChanException.invalidMessage "Missing required header: process_name")) := by
  refine ⟨?_, ?_, ?_⟩
  · intro h1 h2
    simp [extract_handshake_headers, h1, h2]
  · intro h1
    simp [extract_handshake_headers, h1]
  · intro h1 h2
    simp [extract_handshake_headers, h1, h2]

/-- Counterexample for C8 as stated: a message whose `host_port` header is
present (not absent) but empty still raises the invalid-message error. -/
theorem present_empty_host_port_raises :
    extract_handshake_headers newConnection emptyHostPortMsg =
      Except.error (TChanException.invalidMessage "Missing required header: host_port") ∧
    emptyHostPortMsg.host_port ≠ none := ⟨rfl, by decide⟩

/-- Witness for C8 (amended): a well-formed init response records the peer. -/
theorem extract_handshake_headers_records_witness :
    extract_handshake_headers newConnection initReqCtxW.message =
      Except.ok
        { newConnection with
          remoteHost := initReqCtxW.message.host_port
          remoteProcessName := initReqCtxW.message.process_name
          requestedVersion := some initReqCtxW.message.version } :=
  (extract_handshake_headers_records newConnection initReqCtxW.message).1 rfl rfl

/-- Claim C9: for every code inside the error enumeration, `send_error`
writes an error message whose code field is the constant `bad_request`, no
matter which code was passed; a code outside the enumeration raises the
invalid-error-code exception and nothing is written. -/
theorem send_error_always_bad_request (c : TornadoConnection) (code : Nat) (text : String)
    (mid : Option Nat) :
    (ERROR_CODES.contains code = true →
      send_error c code text mid =
        Except.ok (frame_and_write c
          (errorMessage (ErrorCode.code ErrorCode.bad_request) text) mid) ∧
      ∀ m id, Effect.writeFrame m id ∈
          (frame_and_write c (errorMessage (ErrorCode.code ErrorCode.bad_request) text) mid).2 →
        m.error_code = some (ErrorCode.code ErrorCode.bad_request)) ∧
    (ERROR_CODES.contains code = false →
      send_error c code text mid = Except.error (TChanException.invalidErrorCode code)) := by
  constructor
  · intro h
    have hm : code ∈ ERROR_CODES := by simpa using h
    constructor
    · simp [send_error, hm]
    · intro m id hmem
      simp [frame_and_write, errorMessage, isRequestType] at hmem
      rw [hmem.1]
  · intro h
    have hm : code ∉ ERROR_CODES := by simpa using h
    simp [send_error, hm]

/-- Witness for C9: sending with the in-enumeration code 2 writes the
bad-request code instead. -/
theorem send_error_always_bad_request_witness :
    send_error newConnection 2 "boom" (some 9) =
      Except.ok (frame_and_write newConnection
        (errorMessage (ErrorCode.code ErrorCode.bad_request) "boom") (some 9)) :=
  ((send_error_always_bad_request newConnection 2 "boom" (some 9)).1 rfl).1

/-- Claim C10: an explicit message id of 0 is treated exactly like a missing
id — a fresh id is drawn from the counter — on both `frame_and_write` and
`frame_and_write_stream`, and no frame with message id 0 is ever written by
these operations. -/
theorem zero_id_replaced_by_fresh (c : TornadoConnection) (m : Message)
    (fragments : List Message) :
    frame_and_write c m (some 0) = frame_and_write c m none ∧
    frame_and_write_stream c fragments (some 0) = frame_and_write_stream c fragments none ∧
    (∀ mid m2 id, Effect.writeFrame m2 id ∈ (frame_and_write c m mid).2 → id ≠ 0) ∧
    (∀ mid m2 id,
      Effect.writeFrame m2 id ∈ (frame_and_write_stream c fragments mid).2 → id ≠ 0) := by
  refine ⟨rfl, rfl, ?_, ?_⟩
  · intro mid m2 id hmem
    have hid := frame_and_write_write_id c m mid m2 id hmem
    rw [hid]
    exact resolveId_ne_zero c mid
  · intro mid m2 id hmem
    simp only [frame_and_write_stream] at hmem
    have hid := writeFragments_write_id (resolveId c mid).1 (resolveId_ne_zero c mid)
      fragments (resolveId c mid).2 m2 id hmem
    rw [hid]
    exact resolveId_ne_zero c mid

/-- Witness for C10: the concrete ping frame written under an explicit id 0
carries the fresh id 1, which is nonzero. -/
theorem zero_id_replaced_by_fresh_witness :
    (1 : Nat) ≠ 0 ∧
    frame_and_write newConnection pingRequestMessage (some 0) =
      frame_and_write newConnection pingRequestMessage none :=
  ⟨(zero_id_replaced_by_fresh newConnection pingRequestMessage []).2.2.1
      (some 0) pingRequestMessage 1 (by decide),
   (zero_id_replaced_by_fresh newConnection pingRequestMessage []).1⟩

end TChannel
